import Mathlib

/-
Verification of the optional-field container `SingularPtrField<T>` from
`src/protobuf/src/singular.rs`, together with the `OptionLike` capability
implementation on plain `Option<T>`.

Modelling conventions:
  - `Box<T>` is an owning indirection; in the value model a boxed `T` is a `T`,
    so the internal slot `value : Option<Box<T>>` becomes `value : Option T`.
    A non-empty slot (`value.isSome`) corresponds to retained heap storage.
  - An operation that can hit a Rust panic (an internal `Option::unwrap` on an
    empty option, or an explicit panic) returns an `Option` result here:
    `Option.none` is the panic outcome, `Option.some r` the normal outcome
    carrying the returned value and, for `&mut self` methods, the post state.
  - The `T: Default + Clear` bound supplies two external, type-provided
    capabilities (the generic `T` is caller code, outside this crate): a
    canonical default value `dflt` and an in-place reset `clr`.  The contract
    that resetting makes the contents equal the canonical default
    (`clrEq : forall x, clr x = dflt`) is taken as a hypothesis where a claim
    speaks about the value after a reset.
  - Functions returning `&T` / `&mut T` references into the container are
    modelled as returning the pointed-to value (plus the post state for
    mutating methods).
-/

namespace Protobuf

/-- The dedicated field container of `singular.rs`:
`value` is the optional heap slot (`Option<Box<T>>` in the source, may be
non-empty even when logically absent, which is the retained allocation), and
`set` is the presence flag. -/
structure SingularPtrField (T : Type) where
  value : Option T
  set : Bool
  deriving DecidableEq

namespace SingularPtrField

variable {T U : Type}

/-- `SingularPtrField::some`: present, freshly boxed value. -/
def some (v : T) : SingularPtrField T :=
  ⟨Option.some v, true⟩

/-- `SingularPtrField::none`: absent, no storage. -/
def none : SingularPtrField T :=
  ⟨Option.none, false⟩

/-- `SingularPtrField::from_option`. -/
def from_option (o : Option T) : SingularPtrField T :=
  match o with
  | Option.some x => SingularPtrField.some x
  | Option.none => SingularPtrField.none

/-- `SingularPtrField::is_some`: pure projection of the presence flag. -/
def is_some (s : SingularPtrField T) : Bool :=
  s.set

/-- `SingularPtrField::is_none`. -/
def is_none (s : SingularPtrField T) : Bool :=
  !s.is_some

/-- `SingularPtrField::into_option`.  When `set` is true the source unwraps
the slot (`Some(*self.value.unwrap())`), which panics on an empty slot; the
outer `Option` records that panic as `Option.none`. -/
def into_option (s : SingularPtrField T) : Option (Option T) :=
  if s.set then s.value.map Option.some else Option.some Option.none

/-- `SingularPtrField::as_ref`: reference view, same control flow as
`into_option` (internal unwrap of the slot when `set`). -/
def as_ref (s : SingularPtrField T) : Option (Option T) :=
  if s.set then s.value.map Option.some else Option.some Option.none

/-- `SingularPtrField::as_mut`: mutable reference view, same shape as
`as_ref` in the value model. -/
def as_mut (s : SingularPtrField T) : Option (Option T) :=
  if s.set then s.value.map Option.some else Option.some Option.none

/-- `SingularPtrField::get_ref`: `self.as_ref().unwrap()` — panics when the
reference view is `None` (absent field), and propagates a panic from
`as_ref` itself. -/
def get_ref (s : SingularPtrField T) : Option T :=
  s.as_ref.bind id

/-- `SingularPtrField::get_mut_ref`: `self.as_mut().unwrap()`. -/
def get_mut_ref (s : SingularPtrField T) : Option T :=
  s.as_mut.bind id

/-- `SingularPtrField::unwrap`: value by move when `set`, explicit panic
otherwise; also panics when `set` but the slot is empty. -/
def unwrap (s : SingularPtrField T) : Option T :=
  if s.set then s.value else Option.none

/-- `SingularPtrField::unwrap_or`. -/
def unwrap_or (s : SingularPtrField T) (d : T) : Option T :=
  if s.set then s.value else Option.some d

/-- `SingularPtrField::unwrap_or_else`. -/
def unwrap_or_else (s : SingularPtrField T) (f : Unit → T) : Option T :=
  if s.set then s.value else Option.some (f ())

/-- `SingularPtrField::map`: built on `into_option` followed by
`from_option`, exactly as in the source. -/
def map (s : SingularPtrField T) (f : T → U) : Option (SingularPtrField U) :=
  s.into_option.map (fun o => from_option (o.map f))

/-- `SingularPtrField::iter`: the iterator yields the zero-or-one elements of
`as_ref`; modelled as the underlying list of yielded elements. -/
def iter (s : SingularPtrField T) : Option (List T) :=
  s.as_ref.map Option.toList

/-- `SingularPtrField::mut_iter`. -/
def mut_iter (s : SingularPtrField T) : Option (List T) :=
  s.as_mut.map Option.toList

/-- `SingularPtrField::take`: when `set`, flips the flag and moves the slot
out (`self.value.take().unwrap()` — the slot is left empty, and an empty slot
panics); when unset, returns `None` and leaves the state untouched. -/
def take (s : SingularPtrField T) : Option (Option T × SingularPtrField T) :=
  if s.set then
    match s.value with
    | Option.some v => Option.some (Option.some v, ⟨Option.none, false⟩)
    | Option.none => Option.none
  else
    Option.some (Option.none, s)

/-- `SingularPtrField::clear`: only `self.set = false`; the slot and its
contents are untouched (no teardown of the retained value). -/
def clear (s : SingularPtrField T) : SingularPtrField T :=
  ⟨s.value, false⟩

/-- Modelled from the spec: the `Clear` impl used by
`self.value.clear()` in `unwrap_or_default` lives in `clear.rs`, which is not
among the provided sources.  The spec for `unwrap_or_default` says that when
unset with storage retained the operation must `reset storage in place and
return it`, so clearing the slot resets the retained value in place to its
cleared state and keeps the storage. -/
def slotClear (clr : T → T) (o : Option T) : Option T :=
  o.map clr

/-- `SingularPtrField::unwrap_or_default` (bound `T: Default + Clear`):
if `set`, same as `unwrap`; else if the slot retains a value, clear the slot
in place and unwrap it; else produce `Default::default()`. -/
def unwrap_or_default (s : SingularPtrField T) (clr : T → T) (dflt : T) : Option T :=
  if s.set then s.unwrap
  else if s.value.isSome then slotClear clr s.value
  else Option.some dflt

/-- `OptionLike::set_default` for `SingularPtrField` (and the inherent
`set_default`, which delegates to it): sets the flag, then clears the
retained boxed value in place when the slot is non-empty, otherwise boxes a
fresh default; finally `self.as_mut().unwrap()` returns a reference to the
now-present value (panic recorded by the outer `Option`). -/
def set_default (s : SingularPtrField T) (clr : T → T) (dflt : T) :
    Option (T × SingularPtrField T) :=
  let s2 : SingularPtrField T :=
    match s.value with
    | Option.some v => ⟨Option.some (clr v), true⟩
    | Option.none => ⟨Option.some dflt, true⟩
  (s2.as_mut.bind id).map (fun v => (v, s2))

/-- `OptionLike::set_value` for `SingularPtrField`: overwrites the whole
container with `SingularPtrField::some(value)`. -/
def set_value (_s : SingularPtrField T) (v : T) : SingularPtrField T :=
  SingularPtrField.some v

/-- `Clone for SingularPtrField`: clones through `as_ref` when present
(a fresh box around the cloned value), else `none()`; cloning of `T` itself
is the identity in the value model. -/
def clone (s : SingularPtrField T) : Option (SingularPtrField T) :=
  if s.set then (s.as_ref.bind id).map SingularPtrField.some
  else Option.some SingularPtrField.none

/-- `Default for SingularPtrField`: `SingularPtrField::none()`. -/
def default (T : Type) : SingularPtrField T :=
  SingularPtrField.none

/-- Equality of `Option` values under an element comparer, as Rust's
`PartialEq for Option<T>` behaves. -/
def optBeq (beqT : T → T → Bool) : Option T → Option T → Bool
  | Option.some x, Option.some y => beqT x y
  | Option.none, Option.none => true
  | _, _ => false

/-- `PartialEq for SingularPtrField`: `self.as_ref() == other.as_ref()`. -/
def beq (beqT : T → T → Bool) (a b : SingularPtrField T) : Option Bool :=
  match a.as_ref, b.as_ref with
  | Option.some ra, Option.some rb => Option.some (optBeq beqT ra rb)
  | _, _ => Option.none

/-- `Hash for SingularPtrField`: hashes exactly `self.as_ref()`; the hasher
is abstracted as a function on the reference view. -/
def hash (hf : Option T → Nat) (s : SingularPtrField T) : Option Nat :=
  s.as_ref.map hf

/-- The representation invariant of the container: presence implies the slot
is non-empty. -/
@[reducible] def RepInv (s : SingularPtrField T) : Prop :=
  s.set = true → s.value.isSome = true

/-- The invariant on the post state of an operation shaped like `take`. -/
@[reducible] def InvTake : Option (Option T × SingularPtrField T) → Prop
  | Option.some (_, s2) => RepInv s2
  | Option.none => True

/-- The invariant on the post state of an operation shaped like
`set_default`. -/
@[reducible] def InvPair : Option (T × SingularPtrField T) → Prop
  | Option.some (_, s2) => RepInv s2
  | Option.none => True

/-- The invariant on an operation returning a fresh container. -/
@[reducible] def InvRes {V : Type} : Option (SingularPtrField V) → Prop
  | Option.some s2 => RepInv s2
  | Option.none => True

end SingularPtrField

/-- `OptionLike::set_default` for plain `Option<T>` (the representation with
no indirection): clear the present value in place, or store a fresh default;
returns the reference target and the post state.  Total — no panic path. -/
def optionSetDefault {T : Type} (clr : T → T) (dflt : T) (o : Option T) :
    T × Option T :=
  match o with
  | Option.some v => (clr v, Option.some (clr v))
  | Option.none => (dflt, Option.some dflt)

/-- A concrete comparer on `Int`, used to instantiate equality claims. -/
def intBeq : Int → Int → Bool :=
  fun x y => decide (x = y)

/-- A concrete hasher on the reference view of an `Int` field, used to
instantiate hashing claims. -/
def intHash : Option Int → Nat :=
  fun o => match o with
  | Option.some x => x.natAbs + 1
  | Option.none => 0

/-- A concrete in-place reset on `Nat` satisfying the reset-to-default
contract for default value 0. -/
def natClr : Nat → Nat :=
  fun _ => 0

open SingularPtrField

theorem as_ref_isSome_of_inv {T : Type} {s : SingularPtrField T} (hs : RepInv s) :
    (s.as_ref).isSome = true := by
  obtain ⟨val, st⟩ := s
  cases st <;> cases val <;> simp_all [as_ref, RepInv]

/-- Claim C1: every public operation of `SingularPtrField` (some, none,
from_option, set_value, set_default, take, clear, map, clone, Default)
preserves the representation invariant: if the presence flag is true then
the internal slot is non-empty. -/
theorem singular_inv_preserved (T U : Type) (f : T → U) (v : T) (o : Option T)
    (clr : T → T) (dflt : T) (s : SingularPtrField T) (hs : RepInv s) :
    RepInv (SingularPtrField.some v)
    ∧ RepInv (SingularPtrField.none : SingularPtrField T)
    ∧ RepInv (from_option o)
    ∧ RepInv (s.set_value v)
    ∧ RepInv s.clear
    ∧ InvTake s.take
    ∧ InvPair (s.set_default clr dflt)
    ∧ InvRes (s.map f)
    ∧ InvRes s.clone
    ∧ RepInv (SingularPtrField.default T) := by
  obtain ⟨val, st⟩ := s
  cases st <;> cases val <;> cases o <;>
    simp_all [SingularPtrField.some, SingularPtrField.none, from_option,
      set_value, clear, take, set_default, map, clone, SingularPtrField.default,
      into_option, as_ref, as_mut, RepInv, InvTake, InvPair, InvRes]

theorem singular_inv_preserved_witness :
    RepInv (SingularPtrField.some (5 : Nat))
    ∧ RepInv (SingularPtrField.none : SingularPtrField Nat)
    ∧ RepInv (from_option (Option.some (3 : Nat)))
    ∧ RepInv ((⟨Option.some 7, false⟩ : SingularPtrField Nat).set_value 5)
    ∧ RepInv (⟨Option.some 7, false⟩ : SingularPtrField Nat).clear
    ∧ InvTake (⟨Option.some 7, false⟩ : SingularPtrField Nat).take
    ∧ InvPair ((⟨Option.some 7, false⟩ : SingularPtrField Nat).set_default natClr 0)
    ∧ InvRes ((⟨Option.some 7, false⟩ : SingularPtrField Nat).map Nat.succ)
    ∧ InvRes (⟨Option.some 7, false⟩ : SingularPtrField Nat).clone
    ∧ RepInv (SingularPtrField.default Nat) :=
  singular_inv_preserved Nat Nat Nat.succ 5 (Option.some 3) natClr 0
    ⟨Option.some 7, false⟩ (by decide)

/-- Claim C2: `set_default` on `SingularPtrField` makes the field present and
holding the default value and returns a reference to it; a non-empty slot is
reset in place (the new contents are the in-place reset of the retained
value), an empty slot gets freshly created storage holding the default. -/
theorem set_default_spec (T : Type) (clr : T → T) (dflt : T)
    (hclr : ∀ x, clr x = dflt) (s : SingularPtrField T) :
    s.set_default clr dflt
        = Option.some (dflt, (⟨Option.some dflt, true⟩ : SingularPtrField T))
    ∧ (⟨Option.some dflt, true⟩ : SingularPtrField T).is_some = true
    ∧ (∀ x, s.value = Option.some x →
        s.set_default clr dflt
          = Option.some (clr x, (⟨Option.some (clr x), true⟩ : SingularPtrField T)))
    ∧ (s.value = Option.none →
        s.set_default clr dflt
          = Option.some (dflt, (⟨Option.some dflt, true⟩ : SingularPtrField T))) := by
  obtain ⟨val, st⟩ := s
  cases val <;> simp_all [set_default, as_mut, is_some, hclr]

theorem set_default_spec_witness :
    (⟨Option.some 7, false⟩ : SingularPtrField Nat).set_default natClr 0
        = Option.some (0, (⟨Option.some 0, true⟩ : SingularPtrField Nat))
    ∧ (⟨Option.some 0, true⟩ : SingularPtrField Nat).is_some = true :=
  ⟨(set_default_spec Nat natClr 0 (fun _ => rfl) ⟨Option.some 7, false⟩).1,
   (set_default_spec Nat natClr 0 (fun _ => rfl) ⟨Option.some 7, false⟩).2.1⟩

/-- Claim C3: `unwrap_or_default` returns the contained value (same as
`unwrap`) when set; when unset with a retained slot it resets the retained
value in place and returns it, equal to the default, without failing; when
unset with no storage it returns the default. -/
theorem unwrap_or_default_spec (T : Type) (clr : T → T) (dflt : T)
    (hclr : ∀ x, clr x = dflt) (s : SingularPtrField T) (hs : RepInv s) :
    (s.set = true →
        s.unwrap_or_default clr dflt = s.unwrap ∧ (s.unwrap).isSome = true)
    ∧ (∀ x, s.set = false → s.value = Option.some x →
        s.unwrap_or_default clr dflt = Option.some (clr x) ∧ clr x = dflt)
    ∧ (s.set = false → s.value = Option.none →
        s.unwrap_or_default clr dflt = Option.some dflt) := by
  obtain ⟨val, st⟩ := s
  cases st <;> cases val <;>
    simp_all [unwrap_or_default, unwrap, slotClear, RepInv, hclr]

theorem unwrap_or_default_spec_witness :
    (⟨Option.some 7, false⟩ : SingularPtrField Nat).unwrap_or_default natClr 0
        = Option.some (natClr 7)
    ∧ natClr 7 = 0 :=
  (unwrap_or_default_spec Nat natClr 0 (fun _ => rfl)
      ⟨Option.some 7, false⟩ (by decide)).2.1 7 (by decide) (by decide)

/-- Claim C4: `clear` flips the presence flag to false and changes nothing
else: the slot is left exactly as it was and no teardown of the retained
value is performed. -/
theorem clear_spec (T : Type) (s : SingularPtrField T) :
    (s.clear).set = false ∧ (s.clear).value = s.value :=
  ⟨rfl, rfl⟩

/-- Claim C5: `take` on a set container returns the contained value, makes
the container absent with an emptied slot; on an unset container it returns
nothing and leaves the whole state (including retained storage) unchanged. -/
theorem take_spec (T : Type) (s : SingularPtrField T) (hs : RepInv s) :
    (∀ v, s.set = true → s.value = Option.some v →
        s.take = Option.some (Option.some v, (⟨Option.none, false⟩ : SingularPtrField T)))
    ∧ (s.set = true → (s.take).isSome = true)
    ∧ (s.set = false → s.take = Option.some (Option.none, s)) := by
  obtain ⟨val, st⟩ := s
  cases st <;> cases val <;> simp_all [take, RepInv]

theorem take_spec_witness :
    (⟨Option.some 7, true⟩ : SingularPtrField Nat).take
        = Option.some (Option.some 7, (⟨Option.none, false⟩ : SingularPtrField Nat))
    ∧ (⟨Option.some 9, false⟩ : SingularPtrField Nat).take
        = Option.some (Option.none, (⟨Option.some 9, false⟩ : SingularPtrField Nat)) :=
  ⟨(take_spec Nat ⟨Option.some 7, true⟩ (by decide)).1 7 (by decide) (by decide),
   (take_spec Nat ⟨Option.some 9, false⟩ (by decide)).2.2 (by decide)⟩

/-- Claim C6: equality of containers is equality of their `as_ref` views,
equal containers hash identically, and retained-but-unset storage is
ignored: a container built by taking out of `some 5` equals `none`, and so
does one that merely retains storage. -/
theorem eq_hash_spec (T : Type) (beqT : T → T → Bool)
    (hbeq : ∀ x y, beqT x y = true ↔ x = y) (hf : Option T → Nat)
    (a b : SingularPtrField T) (ha : RepInv a) (hb : RepInv b) :
    (∃ ra rb, a.as_ref = Option.some ra ∧ b.as_ref = Option.some rb ∧
        beq beqT a b = Option.some (optBeq beqT ra rb) ∧
        (optBeq beqT ra rb = true ↔ ra = rb))
    ∧ (beq beqT a b = Option.some true →
        SingularPtrField.hash hf a = SingularPtrField.hash hf b)
    ∧ take (SingularPtrField.some (5 : Int))
        = Option.some (Option.some 5, (SingularPtrField.none : SingularPtrField Int))
    ∧ beq intBeq (SingularPtrField.none : SingularPtrField Int)
        (SingularPtrField.none) = Option.some true
    ∧ beq intBeq (⟨Option.some 9, false⟩ : SingularPtrField Int)
        (SingularPtrField.none) = Option.some true := by
  obtain ⟨va, sa⟩ := a
  obtain ⟨vb, sb⟩ := b
  refine ⟨?_, ?_, by decide, by decide, by decide⟩
  · cases sa <;> cases sb <;> cases va <;> cases vb <;>
      simp_all [as_ref, beq, optBeq, RepInv, hbeq]
  · intro h
    cases sa <;> cases sb <;> cases va <;> cases vb <;>
      simp_all [as_ref, beq, optBeq, SingularPtrField.hash, RepInv, hbeq]

theorem eq_hash_spec_witness :
    beq intBeq (⟨Option.some 9, false⟩ : SingularPtrField Int)
        (SingularPtrField.none) = Option.some true
    ∧ SingularPtrField.hash intHash (⟨Option.some 9, false⟩ : SingularPtrField Int)
        = SingularPtrField.hash intHash (SingularPtrField.none : SingularPtrField Int) := by
  have h := eq_hash_spec Int intBeq
    (by intro x y; simp [intBeq]) intHash
    (⟨Option.some 9, false⟩ : SingularPtrField Int) SingularPtrField.none
    (by decide) (by decide)
  exact ⟨h.2.2.2.2, h.2.1 h.2.2.2.2⟩

/-- Claim C7: the unchecked access family (`get_ref`, `get_mut_ref`,
`unwrap`) fails exactly when the container is absent and returns the
contained value when present; every other operation is total and never
fails. -/
theorem totality_spec (T U : Type) (s : SingularPtrField T) (hs : RepInv s)
    (d : T) (f : Unit → T) (g : T → U) :
    (s.unwrap = Option.none ↔ s.is_none = true)
    ∧ (s.get_ref = Option.none ↔ s.is_none = true)
    ∧ (s.get_mut_ref = Option.none ↔ s.is_none = true)
    ∧ (s.set = true → ∃ v, s.value = Option.some v ∧ s.unwrap = Option.some v
        ∧ s.get_ref = Option.some v ∧ s.get_mut_ref = Option.some v)
    ∧ (s.into_option).isSome = true
    ∧ (s.as_ref).isSome = true
    ∧ (s.as_mut).isSome = true
    ∧ (s.map g).isSome = true
    ∧ (s.iter).isSome = true
    ∧ (s.mut_iter).isSome = true
    ∧ (s.take).isSome = true
    ∧ (s.clone).isSome = true
    ∧ (s.unwrap_or d).isSome = true
    ∧ (s.unwrap_or_else f).isSome = true := by
  obtain ⟨val, st⟩ := s
  cases st <;> cases val <;>
    simp_all [unwrap, get_ref, get_mut_ref, is_none, is_some, into_option,
      as_ref, as_mut, map, iter, mut_iter, take, clone, unwrap_or,
      unwrap_or_else, from_option, RepInv]

theorem totality_spec_witness :
    ((⟨Option.some 7, true⟩ : SingularPtrField Nat).unwrap = Option.none
        ↔ (⟨Option.some 7, true⟩ : SingularPtrField Nat).is_none = true)
    ∧ ((⟨Option.none, false⟩ : SingularPtrField Nat).get_ref = Option.none
        ↔ (⟨Option.none, false⟩ : SingularPtrField Nat).is_none = true) :=
  ⟨(totality_spec Nat Nat ⟨Option.some 7, true⟩ (by decide) 0
      (fun _ => 0) Nat.succ).1,
   (totality_spec Nat Nat ⟨Option.none, false⟩ (by decide) 0
      (fun _ => 0) Nat.succ).2.1⟩

/-- Claim C8: `set_default` on the plain `Option<T>` representation always
leaves the slot holding a value equal to the default, whatever the previous
state, and returns a reference to it. -/
theorem option_set_default_spec (T : Type) (clr : T → T) (dflt : T)
    (hclr : ∀ x, clr x = dflt) (o : Option T) :
    optionSetDefault clr dflt o = (dflt, Option.some dflt) := by
  cases o <;> simp [optionSetDefault, hclr]

theorem option_set_default_spec_witness :
    optionSetDefault natClr 0 (Option.some 7) = (0, Option.some 0) :=
  option_set_default_spec Nat natClr 0 (fun _ => rfl) (Option.some 7)

/-- Claim C9: the map laws — `none().map(f) == none()` and
`some(v).map(f) == some(f(v))` — both without failing. -/
theorem map_laws (T U : Type) (f : T → U) (v : T) :
    (SingularPtrField.none : SingularPtrField T).map f
        = Option.some (SingularPtrField.none : SingularPtrField U)
    ∧ (SingularPtrField.some v).map f
        = Option.some (SingularPtrField.some (f v)) :=
  ⟨rfl, rfl⟩

/-- Claim C10: the `Default` instance of the container is exactly `none()`:
absent, with an empty slot. -/
theorem default_spec (T : Type) :
    SingularPtrField.default T = (SingularPtrField.none : SingularPtrField T)
    ∧ (SingularPtrField.default T).is_none = true
    ∧ (SingularPtrField.default T).value = Option.none :=
  ⟨rfl, rfl, rfl⟩

end Protobuf
